import Mathlib

/-!
Shallow embedding of the invoice-website repository (two React invoice
generators) for checking its natural-language specification.

Modelling conventions, applied uniformly:
* JavaScript numbers are modelled as exact rationals (`ℚ`).  Every numeric
  computation in the source (sums, `* 0.08`, `quantity * rate`) is transcribed
  verbatim on `ℚ`.
* JavaScript strings are Lean `String`s.  `s.trim()` is modelled by `jsTrim`
  (drop whitespace from both ends), `s.includes(c)` by membership of the
  character in `s.data`, and the falsy test `!s` (for strings) by `s = ""`.
* The jsPDF drawing surface is modelled as a list of emitted drawing
  commands (`CmdA` for the first generator, `CmdB` for the second); each
  `doc.text` / `doc.rect` / `doc.setFontSize` / colour call appends one
  command, in source order.  jsPDF opens a single page and the source never
  calls `addPage`, so the page index carried by every command stays `0`.
* Impure reads (`Date.now()`, `new Date().toLocaleDateString()`) are passed
  in as explicit parameters.
-/

set_option maxRecDepth 100000

namespace Invoice

/-- `InvoiceItem` from the first generator (src/unnamed/part_000). -/
structure InvoiceItem where
  id : String
  description : String
  quantity : ℚ
  rate : ℚ
  amount : ℚ
  deriving DecidableEq, Repr

/-- `ClientInfo` from the first generator; the optional fields are modelled
as strings, with the empty string standing for an absent (falsy) value,
matching how the source tests them (`if (clientInfo.company) ...`). -/
structure ClientInfo where
  name : String
  email : String
  company : String
  address : String
  phone : String
  deriving DecidableEq, Repr

/-- Colour part of `BrandTheme` (src/unnamed/part_000). -/
structure ThemeColors where
  primary : String
  secondary : String
  accent : String
  deriving DecidableEq, Repr

/-- Font part of `BrandTheme` (src/unnamed/part_000). -/
structure ThemeFonts where
  heading : String
  body : String
  deriving DecidableEq, Repr

/-- `BrandTheme` from the first generator. -/
structure BrandTheme where
  id : String
  name : String
  colors : ThemeColors
  fonts : ThemeFonts
  deriving DecidableEq, Repr

/-- The component state of the first generator that the render/export code
reads: invoice number/dates, client info, items, notes, applied theme. -/
structure StateA where
  invoiceNumber : String
  invoiceDate : String
  dueDate : String
  clientInfo : ClientInfo
  items : List InvoiceItem
  notes : String
  appliedTheme : Option BrandTheme
  deriving DecidableEq, Repr

/-! ## TotalsCalculator (src/unnamed/part_000 lines 99-101)

```
const subtotal = items.reduce((sum, item) => sum + item.amount, 0);
const tax = subtotal * 0.08; // 8% tax
const total = subtotal + tax;
```
-/

/-- `subtotal`: `items.reduce((sum, item) => sum + item.amount, 0)`. -/
def subtotal (items : List InvoiceItem) : ℚ :=
  items.foldl (fun sum item => sum + item.amount) 0

/-- `tax = subtotal * 0.08` (the source applies no rounding here). -/
def tax (items : List InvoiceItem) : ℚ :=
  subtotal items * (8 / 100)

/-- `total = subtotal + tax`. -/
def total (items : List InvoiceItem) : ℚ :=
  subtotal items + tax items

/-- The specification's 2-decimal currency rounding `round2` (round to the
nearest multiple of 1/100, halves up); the spec's words, not the source. -/
def round2 (x : ℚ) : ℚ :=
  (round (x * 100) : ℤ) / 100

/-! ## Item mutation (src/unnamed/part_000 lines 69-97, 103-112) -/

/-- One field edit of an `InvoiceItem`, as passed to `updateItem`
(`field: keyof InvoiceItem, value: string | number`). -/
inductive FieldEdit where
  | id (v : String)
  | description (v : String)
  | quantity (v : ℚ)
  | rate (v : ℚ)
  | amount (v : ℚ)
  deriving DecidableEq, Repr

/-- `{ ...item, [field]: value }`. -/
def applyField (item : InvoiceItem) : FieldEdit → InvoiceItem
  | .id v => { item with id := v }
  | .description v => { item with description := v }
  | .quantity v => { item with quantity := v }
  | .rate v => { item with rate := v }
  | .amount v => { item with amount := v }

/-- `field === 'quantity' || field === 'rate'`. -/
def isQuantityOrRate : FieldEdit → Bool
  | .quantity _ => true
  | .rate _ => true
  | _ => false

/-- `updateItem` (src/unnamed/part_000 lines 86-97): map over the items; on
the item whose id matches, set the field and, when the edited field is
`quantity` or `rate`, recompute `amount = quantity * rate`. -/
def updateItem (items : List InvoiceItem) (tid : String) (e : FieldEdit) :
    List InvoiceItem :=
  items.map fun item =>
    if item.id = tid then
      let updatedItem := applyField item e
      if isQuantityOrRate e then
        { updatedItem with amount := updatedItem.quantity * updatedItem.rate }
      else updatedItem
    else item

/-- The initial `items` state (src/unnamed/part_000 lines 61-63). -/
def initialItems : List InvoiceItem :=
  [{ id := "1", description := "", quantity := 1, rate := 0, amount := 0 }]

/-- `addItem` (lines 69-78): append a fresh empty item; the id is
`Date.now().toString()`, passed here as the explicit `newId`. -/
def addItem (items : List InvoiceItem) (newId : String) : List InvoiceItem :=
  items ++ [{ id := newId, description := "", quantity := 1, rate := 0, amount := 0 }]

/-- `removeItem` (lines 80-84): only filters when more than one item is
present; `filter` drops every item whose id equals the argument. -/
def removeItem (items : List InvoiceItem) (tid : String) : List InvoiceItem :=
  if items.length > 1 then items.filter (fun item => item.id ≠ tid) else items

/-- An expense row coming from the expense matcher collaborator. -/
structure ExpenseItem where
  description : String
  amount : ℚ
  deriving DecidableEq, Repr

/-- `handleExpenseItemsAdd` (lines 103-112): map each expense to an item with
quantity 1 and rate = amount = the expense amount, and append them; each
generated id (`Date.now().toString() + Math.random()`) is passed explicitly. -/
def handleExpenseItemsAdd (items : List InvoiceItem)
    (expenses : List (String × ExpenseItem)) : List InvoiceItem :=
  items ++ expenses.map fun p =>
    { id := p.1, description := p.2.description, quantity := 1,
      rate := p.2.amount, amount := p.2.amount }

/-! ## ThemeResolver (src/unnamed/part_000 lines 131-141 and 406-419, 449)

Every use site reads `appliedTheme?.colors.X || defaultX` (resp.
`appliedTheme?.fonts.X || 'inherit'`): optional chaining yields the default
when no theme is applied, and `||` falls back when the individual field is
falsy (the empty string). -/

/-- JavaScript `a || d` for strings: the empty string is falsy. -/
def orDefault (v d : String) : String :=
  if v = "" then d else v

/-- A fully resolved render palette. -/
structure ResolvedTheme where
  primary : String
  secondary : String
  accent : String
  heading : String
  body : String
  deriving DecidableEq, Repr

/-- Field-by-field theme resolution as performed at the use sites:
`appliedTheme?.colors.primary || '#2563eb'`,
`appliedTheme?.colors.secondary || '#1f2937'`,
`appliedTheme?.colors.accent || '#f59e0b'`,
`appliedTheme?.fonts.heading || 'inherit'`,
`appliedTheme?.fonts.body || 'inherit'`. -/
def resolveTheme : Option BrandTheme → ResolvedTheme
  | none =>
      { primary := "#2563eb", secondary := "#1f2937", accent := "#f59e0b",
        heading := "inherit", body := "inherit" }
  | some t =>
      { primary := orDefault t.colors.primary "#2563eb",
        secondary := orDefault t.colors.secondary "#1f2937",
        accent := orDefault t.colors.accent "#f59e0b",
        heading := orDefault t.fonts.heading "inherit",
        body := orDefault t.fonts.body "inherit" }

/-! ## Number formatting

`x.toFixed(2)` formats with exactly two decimals, rounding to the nearest
cent (halves up); `x.toString()` on a number is abstracted by `numStr`, a
deterministic injective-enough rendering (for the integral values appearing
in the sources it agrees with JavaScript). -/

/-- `x.toFixed(2)`. -/
def toFixed2 (x : ℚ) : String :=
  let c : ℤ := round (x * 100)
  let sgn := if c < 0 then "-" else ""
  let a := c.natAbs
  let r := a % 100
  sgn ++ toString (a / 100) ++ "." ++ (if r < 10 then "0" else "") ++ toString r

/-- `x.toString()` on a JavaScript number, abstracted deterministically. -/
def numStr (x : ℚ) : String :=
  if x.den = 1 then toString x.num
  else toString x.num ++ "/" ++ toString x.den

/-! ## DocumentExporter, first generator (src/unnamed/part_000 lines 128-187)

`generatePDF` emits, in order: a styled header, invoice metadata, the
bill-to block, an item-table header row, one row per item at
`y = 110 + 10*i`, the totals block, and (when non-empty) the notes --
`doc.text(notes, 20, yPosition + 40)` with the raw, unwrapped string.
It never calls `doc.addPage()`, so every command lands on page `0`. -/

/-- One jsPDF call of the first generator; `page` is the index of the page
the command is drawn on (jsPDF's current page, never advanced here). -/
inductive CmdA where
  | text (s : String) (x y : ℕ) (page : ℕ)
  | fontSize (n : ℕ) (page : ℕ)
  | textColor (c : String) (page : ℕ)
  deriving DecidableEq, Repr

/-- The page a command is drawn on. -/
def CmdA.pageOf : CmdA → ℕ
  | .text _ _ _ p => p
  | .fontSize _ p => p
  | .textColor _ p => p

/-- The item-table loop (lines 160-166): for the item at index `i` a row of
four text cells at `y`, then `y` advances by 10. -/
def itemRows (y : ℕ) : List InvoiceItem → List CmdA
  | [] => []
  | item :: rest =>
      [CmdA.text item.description 20 y 0,
       CmdA.text (numStr item.quantity) 120 y 0,
       CmdA.text ("$" ++ toFixed2 item.rate) 140 y 0,
       CmdA.text ("$" ++ toFixed2 item.amount) 170 y 0] ++ itemRows (y + 10) rest

/-- jsPDF's default page format is A4 in millimetres: 297 mm high. -/
def pageHeightA4 : ℕ := 297

/-- `generatePDF` of the first generator as the ordered list of drawing
commands it emits (lines 128-179). -/
def generatePDF0 (s : StateA) : List CmdA :=
  let primaryColor := orDefault (match s.appliedTheme with
    | none => "" | some t => t.colors.primary) "#2563eb"
  let yAfterLoop := 110 + 10 * s.items.length
  let yTotals := yAfterLoop + 10
  [CmdA.fontSize 24 0,
   CmdA.textColor primaryColor 0,
   CmdA.text "INVOICE" 20 30 0,
   CmdA.fontSize 12 0,
   CmdA.textColor "#000000" 0,
   CmdA.text ("Invoice #: " ++ s.invoiceNumber) 20 50 0,
   CmdA.text ("Date: " ++ s.invoiceDate) 20 60 0,
   CmdA.text ("Due Date: " ++ s.dueDate) 20 70 0,
   CmdA.text "Bill To:" 120 50 0,
   CmdA.text s.clientInfo.name 120 60 0]
  ++ (if s.clientInfo.company ≠ "" then [CmdA.text s.clientInfo.company 120 70 0] else [])
  ++ (if s.clientInfo.email ≠ "" then [CmdA.text s.clientInfo.email 120 80 0] else [])
  ++ [CmdA.text "Description" 20 100 0,
      CmdA.text "Qty" 120 100 0,
      CmdA.text "Rate" 140 100 0,
      CmdA.text "Amount" 170 100 0]
  ++ itemRows 110 s.items
  ++ [CmdA.text ("Subtotal: $" ++ toFixed2 (subtotal s.items)) 140 yTotals 0,
      CmdA.text ("Tax: $" ++ toFixed2 (tax s.items)) 140 (yTotals + 10) 0,
      CmdA.fontSize 14 0,
      CmdA.text ("Total: $" ++ toFixed2 (total s.items)) 140 (yTotals + 20) 0]
  ++ (if s.notes ≠ "" then
        [CmdA.fontSize 10 0,
         CmdA.text "Notes:" 20 (yTotals + 30) 0,
         CmdA.text s.notes 20 (yTotals + 40) 0]
      else [])

/-- The file name passed to `doc.save` (line 181):
`` `invoice-${invoiceNumber}.pdf` ``. -/
def savedFileName (invoiceNumber : String) : String :=
  "invoice-" ++ invoiceNumber ++ ".pdf"

/-! ## Second generator (src/unnamed/part_001) -/

/-- `InvoiceData`, the form state of the second generator. -/
structure FormStateB where
  clientName : String
  serviceDescription : String
  totalHours : ℚ
  hourlyRate : ℚ
  userName : String
  userEmail : String
  deriving DecidableEq, Repr

/-- The reset form (lines 22-29 and 217-224). -/
def emptyForm : FormStateB :=
  { clientName := "", serviceDescription := "", totalHours := 0,
    hourlyRate := 0, userName := "", userEmail := "" }

/-- JavaScript `s.trim()`: strip whitespace from both ends. -/
def jsTrim (s : String) : String :=
  String.mk (((s.data.dropWhile Char.isWhitespace).reverse.dropWhile
    Char.isWhitespace).reverse)

/-- `validateForm` (lines 41-91), split into the first failing toast
description; the source returns `false` exactly when some check fails. -/
def validateMsg (s : FormStateB) : Option String :=
  if jsTrim s.clientName = "" then some ("Please enter the client" ++ "\x27" ++ "s name")
  else if jsTrim s.serviceDescription = "" then some "Please enter a service description"
  else if s.totalHours ≤ 0 then some "Please enter valid total hours"
  else if s.hourlyRate ≤ 0 then some "Please enter a valid hourly rate"
  else if jsTrim s.userName = "" then some "Please enter your name"
  else if jsTrim s.userEmail = "" ∨ ¬ s.userEmail.data.contains '@' then
    some "Please enter a valid email address"
  else none

/-- `validateForm`'s boolean result. -/
def validateForm (s : FormStateB) : Bool :=
  (validateMsg s).isNone

/-! ## TextLayoutEngine

Modelled from the spec: the wrapping performed by the rendering backend's
`doc.splitTextToSize` (jsPDF library code, not part of this repository) is
greedy word-wrap -- accumulate whitespace-delimited tokens onto the current
line while the measured width of the candidate line is at most `maxWidth`;
on overflow, flush the current line and start a new one with the offending
token.  Width measurement is an injected backend capability; it is modelled
here as character count. -/

/-- Split a character list at whitespace into the non-empty maximal runs of
non-whitespace characters; `acc` holds the current run, reversed. -/
def splitWsAux : List Char → List Char → List (List Char)
  | [], acc => if acc = [] then [] else [acc.reverse]
  | c :: rest, acc =>
      if c.isWhitespace then
        if acc = [] then splitWsAux rest []
        else acc.reverse :: splitWsAux rest []
      else splitWsAux rest (c :: acc)

/-- Whitespace-delimited non-empty tokens of a string. -/
def tokenize (s : String) : List String :=
  (splitWsAux s.data []).map String.mk

/-- The rendered text of a line built from its tokens. -/
def lineStr (line : List String) : String :=
  String.intercalate " " line

/-- Greedy accumulation: `cur` is the (non-empty) current line. -/
def wrapGo (w : ℕ) (cur : List String) : List String → List (List String)
  | [] => [cur]
  | t :: rest =>
      if (lineStr (cur ++ [t])).length ≤ w then wrapGo w (cur ++ [t]) rest
      else cur :: wrapGo w [t] rest

/-- Wrap a token list into lines of measured width at most `w` (a single
over-wide token is placed alone on its own line). -/
def wrapTokens (w : ℕ) : List String → List (List String)
  | [] => []
  | t :: rest => wrapGo w [t] rest

/-- Modelled from the spec: `doc.splitTextToSize(text, maxWidth)` of the
jsPDF backend, as the greedy word-wrap above under the character-count
width measure. -/
def splitTextToSize (s : String) (w : ℕ) : List String :=
  (wrapTokens w (tokenize s)).map lineStr

/-- One jsPDF call of the second generator; colours there are numeric RGB
triples.  `textLines` is `doc.text` applied to an array of wrapped lines. -/
inductive CmdB where
  | text (s : String) (x y : ℕ)
  | textLines (ls : List String) (x y : ℕ)
  | rect (x y w h : ℕ)
  | fontSize (n : ℕ)
  | textColor (r g b : ℕ)
  | fillColor (r g b : ℕ)
  deriving DecidableEq, Repr

/-- `pageWidth = doc.internal.pageSize.width` (A4, 210 mm). -/
def pageWidthA4 : ℕ := 210

/-- `generatePDF` of the second generator (lines 93-163) as its ordered
command list.  The impure reads are explicit parameters: `today` is
`new Date().toLocaleDateString()` and `now` is `Date.now()`. -/
def generatePDF1 (s : FormStateB) (today : String) (now : ℕ) : List CmdB :=
  let totalAmount := s.totalHours * s.hourlyRate
  let tableStartY := 200
  [CmdB.fontSize 24,
   CmdB.textColor 59 130 246,
   CmdB.text "INVOICE" (pageWidthA4 / 2) 30,
   CmdB.fontSize 12,
   CmdB.textColor 0 0 0,
   CmdB.text ("Invoice Date: " ++ today) 20 50,
   CmdB.text ("Invoice #: INV-" ++ toString now) 20 60,
   CmdB.fontSize 14,
   CmdB.textColor 59 130 246,
   CmdB.text "From:" 20 80,
   CmdB.fontSize 12,
   CmdB.textColor 0 0 0,
   CmdB.text s.userName 20 90,
   CmdB.text s.userEmail 20 100,
   CmdB.fontSize 14,
   CmdB.textColor 59 130 246,
   CmdB.text "To:" 20 120,
   CmdB.fontSize 12,
   CmdB.textColor 0 0 0,
   CmdB.text s.clientName 20 130,
   CmdB.fontSize 14,
   CmdB.textColor 59 130 246,
   CmdB.text "Service Description:" 20 160,
   CmdB.fontSize 12,
   CmdB.textColor 0 0 0,
   CmdB.textLines (splitTextToSize s.serviceDescription (pageWidthA4 - 40)) 20 170,
   CmdB.fontSize 12,
   CmdB.fillColor 59 130 246,
   CmdB.rect 20 tableStartY (pageWidthA4 - 40) 10,
   CmdB.textColor 255 255 255,
   CmdB.text "Description" 25 (tableStartY + 7),
   CmdB.text "Hours" 100 (tableStartY + 7),
   CmdB.text "Rate" 130 (tableStartY + 7),
   CmdB.text "Total" 160 (tableStartY + 7),
   CmdB.textColor 0 0 0,
   CmdB.text "Professional Services" 25 (tableStartY + 20),
   CmdB.text (numStr s.totalHours) 100 (tableStartY + 20),
   CmdB.text ("$" ++ toFixed2 s.hourlyRate) 130 (tableStartY + 20),
   CmdB.text ("$" ++ toFixed2 totalAmount) 160 (tableStartY + 20),
   CmdB.fontSize 14,
   CmdB.textColor 59 130 246,
   CmdB.text ("Total Amount: $" ++ toFixed2 totalAmount) (pageWidthA4 - 80) (tableStartY + 40),
   CmdB.fontSize 10,
   CmdB.textColor 128 128 128,
   CmdB.text "Thank you for your business!" (pageWidthA4 / 2) 270]

/-- Erase the content of the two commands that embed the generation
timestamp (the date line at (20,50) and the `INV-<Date.now()>` line at
(20,60)); every other command is kept unchanged. -/
def scrubTimestamps (cs : List CmdB) : List CmdB :=
  cs.map fun c =>
    match c with
    | CmdB.text _ 20 50 => CmdB.text "" 20 50
    | CmdB.text _ 20 60 => CmdB.text "" 20 60
    | c => c

/-- `clientName.replace(/\s+/g, '-')`: collapse each whitespace run into a
single dash.  The flag records whether the previous character was
whitespace. -/
def collapseWs : List Char → Bool → List Char
  | [], _ => []
  | c :: rest, inRun =>
      if c.isWhitespace then
        if inRun then collapseWs rest true else '-' :: collapseWs rest true
      else c :: collapseWs rest false

/-- `clientName.replace(/\s+/g, '-').toLowerCase()`. -/
def slugify (s : String) : String :=
  String.mk ((collapseWs s.data false).map Char.toLower)

/-- The email attachment file name (line 199):
`` `invoice-${formData.clientName.replace(/\s+/g, '-').toLowerCase()}-${Date.now()}.pdf` ``. -/
def attachmentFileName (clientName : String) (now : ℕ) : String :=
  "invoice-" ++ slugify clientName ++ "-" ++ toString now ++ ".pdf"

/-- The caller-observable outcome of one `handleGenerateAndSend` run:
whether a PDF was generated, whether a send was attempted, the toast shown,
and the form state afterwards.  The source wraps the work in
`try ... catch ... finally`, so the function always returns normally and no
error value reaches its caller. -/
structure HandlerResult where
  generated : Bool
  sent : Bool
  toastTitle : String
  toastDesc : String
  form : FormStateB
  deriving DecidableEq, Repr

/-- The generic catch-block toast description (lines 228-232). -/
def genericFailureMsg : String :=
  "Failed to generate or send the invoice. Please try again."

/-- `handleGenerateAndSend` (lines 165-237).  `sendError` is the delivery
collaborator's result (`some e` when `sendEmail` reports the error `e`):
on a validation failure the function returns before generating anything;
on a delivery error the thrown error is caught and replaced by the generic
toast, and the form keeps its data; on success the form is reset. -/
def handleGenerateAndSend (s : FormStateB) (sendError : Option String) :
    HandlerResult :=
  match validateMsg s with
  | some m =>
      { generated := false, sent := false, toastTitle := "Validation Error",
        toastDesc := m, form := s }
  | none =>
      match sendError with
      | some _ =>
          { generated := true, sent := true, toastTitle := "Error",
            toastDesc := genericFailureMsg, form := s }
      | none =>
          { generated := true, sent := true, toastTitle := "Success!",
            toastDesc := "Your invoice has been generated and sent to your email.",
            form := emptyForm }

/-! ## Concrete sample data used by counterexamples and witnesses -/

/-- A line item with quantity 1 and rate 0.1 (amount 0.1 = 1 × 0.1). -/
def dimeItem : InvoiceItem where
  id := "1"
  description := ""
  quantity := 1
  rate := (1 : ℚ) / 10
  amount := (1 : ℚ) / 10

/-- The item produced by editing the initial item's rate to 5. -/
def ratedItem : InvoiceItem where
  id := "1"
  description := ""
  quantity := 1
  rate := 5
  amount := 5

/-- A brand theme carrying only a primary colour; all other fields are the
empty (falsy) string. -/
def primaryOnlyTheme (i n p : String) : BrandTheme where
  id := i
  name := n
  colors := { primary := p, secondary := "", accent := "" }
  fonts := { heading := "", body := "" }

/-- The fully-default resolved palette. -/
def defaultResolved : ResolvedTheme where
  primary := "#2563eb"
  secondary := "#1f2937"
  accent := "#f59e0b"
  heading := "inherit"
  body := "inherit"

/-- A minimal item (description "x", everything else zero/one). -/
def blankItem : InvoiceItem where
  id := "1"
  description := "x"
  quantity := 1
  rate := 0
  amount := 0

/-- An empty client-info block. -/
def emptyClient : ClientInfo where
  name := ""
  email := ""
  company := ""
  address := ""
  phone := ""

/-- A state with 20 line items: its item table alone is 200 mm tall, far
more than fits under the A4 page height of 297 mm. -/
def manyItemsState : StateA where
  invoiceNumber := "INV-001"
  invoiceDate := "2025-01-01"
  dueDate := ""
  clientInfo := emptyClient
  items := List.replicate 20 blankItem
  notes := ""
  appliedTheme := none

/-- 100 whitespace-delimited tokens (ninety-nine of four letters and one of
five), 500 characters in all when joined with single spaces. -/
def sampleTokens : List String :=
  List.replicate 99 "aaaa" ++ ["aaaaa"]

/-- The 500-character sample text of Scenario C. -/
def sampleText : String :=
  String.intercalate " " sampleTokens

/-- A state whose notes field holds the 500-character sample text. -/
def notesState : StateA where
  invoiceNumber := "INV-001"
  invoiceDate := "2025-01-01"
  dueDate := ""
  clientInfo := emptyClient
  items := [blankItem]
  notes := sampleText
  appliedTheme := none

/-- A form state that passes every validation check. -/
def validSample : FormStateB where
  clientName := "Acme"
  serviceDescription := "Consulting"
  totalHours := 10
  hourlyRate := 50
  userName := "Jo"
  userEmail := "jo@example.com"

/-- The handler outcome the source produces when delivery fails: the error
is swallowed by the catch block, the generic toast is shown, and the form
keeps its data (the PDF would be regenerated on a retry). -/
def deliveryFailureResult (s : FormStateB) : HandlerResult where
  generated := true
  sent := true
  toastTitle := "Error"
  toastDesc := genericFailureMsg
  form := s

/-! ## Theorems -/

/-- Folding the amounts from any accumulator equals adding their sum. -/
theorem foldl_amount_eq (items : List InvoiceItem) :
    ∀ a : ℚ, items.foldl (fun sum item => sum + item.amount) a
      = a + (items.map InvoiceItem.amount).sum := by
  induction items with
  | nil => intro a; simp
  | cons item rest ih =>
      intro a
      simp only [List.foldl_cons, List.map_cons, List.sum_cons, ih]
      ring

/-- Claim C1, counterexample: for the single item with quantity 1 and rate
0.1 (amount 0.1), the computed `tax` is `0.008`, while
`round2(subtotal * 0.08) = 0.01`; the source applies no rounding when it
computes `tax`, so the claimed identity `tax = round2(subtotal * 0.08)`
fails. -/
theorem claim_C1_counterexample :
    tax [dimeItem] ≠ round2 (subtotal [dimeItem] * (8 / 100)) := by
  have h1 : tax [dimeItem] = 8 / 1000 := by
    simp [tax, subtotal, dimeItem]
    norm_num
  have h2 : round2 (subtotal [dimeItem] * (8 / 100)) = 1 / 100 := by
    have h3 : subtotal [dimeItem] * (8 / 100) * 100 = (4 : ℚ) / 5 := by
      simp [subtotal, dimeItem]
      norm_num
    rw [round2, h3]
    norm_num [round_eq]
  rw [h1, h2]
  norm_num

/-- Claim C1 as amended: for every list of line items the computed totals
satisfy `subtotal = Σ amount_i`, `tax = subtotal * 0.08` with no rounding
(the 2-decimal rounding happens only when values are formatted for display
with `toFixed(2)`), and `total = subtotal + tax`. -/
theorem claim_C1_amended (items : List InvoiceItem) :
    subtotal items = (items.map InvoiceItem.amount).sum
      ∧ tax items = subtotal items * (8 / 100)
      ∧ total items = subtotal items + tax items := by
  refine ⟨?_, rfl, rfl⟩
  simpa using foldl_amount_eq items 0

/-- Claim C4: after `updateItem` edits the quantity or the rate of the item
with the given id, every item in the result carrying that id has
`amount = quantity * rate`; no stale amount survives the edit. -/
theorem claim_C4_amount_recomputed (items : List InvoiceItem) (tid : String)
    (e : FieldEdit) (he : isQuantityOrRate e = true) :
    ∀ it ∈ updateItem items tid e, it.id = tid →
      it.amount = it.quantity * it.rate := by
  intro it hmem hid
  rw [updateItem, List.mem_map] at hmem
  obtain ⟨a, _, rfl⟩ := hmem
  by_cases h : a.id = tid
  · simp [h, he]
  · simp only [if_neg h] at hid
    exact absurd hid h

/-- Witness for claim C4: editing the rate of the initial item to 5 yields
an item whose amount is its quantity times its rate. -/
theorem claim_C4_witness :
    isQuantityOrRate (FieldEdit.rate 5) = true
      ∧ ratedItem.amount = ratedItem.quantity * ratedItem.rate := by
  have hlist : updateItem initialItems "1" (FieldEdit.rate 5) = [ratedItem] := by
    simp [updateItem, initialItems, applyField, isQuantityOrRate, ratedItem]
  exact ⟨rfl, claim_C4_amount_recomputed initialItems "1" (FieldEdit.rate 5) rfl
    ratedItem (hlist ▸ List.mem_singleton.mpr rfl) rfl⟩

/-- Claim C5: theme resolution is field-wise.  With no theme applied every
field takes its built-in default; a theme with only `colors.primary` set
keeps the default secondary and accent colours and the default fonts; and
in general each field of the resolved theme is the applied theme's field
where present (non-empty) and the built-in default otherwise. -/
theorem claim_C5_theme_fieldwise :
    resolveTheme none = defaultResolved
      ∧ (∀ i n p : String, p ≠ "" →
          resolveTheme (some (primaryOnlyTheme i n p))
            = { defaultResolved with primary := p })
      ∧ ∀ t : BrandTheme, resolveTheme (some t)
          = { primary := orDefault t.colors.primary "#2563eb",
              secondary := orDefault t.colors.secondary "#1f2937",
              accent := orDefault t.colors.accent "#f59e0b",
              heading := orDefault t.fonts.heading "inherit",
              body := orDefault t.fonts.body "inherit" } := by
  refine ⟨rfl, ?_, fun t => rfl⟩
  intro i n p hp
  simp [resolveTheme, primaryOnlyTheme, orDefault, hp, defaultResolved]

/-- Witness for claim C5: a concrete theme carrying only a primary colour
resolves to that colour together with all the other defaults. -/
theorem claim_C5_witness :
    ("#ff0000" : String) ≠ ""
      ∧ resolveTheme (some (primaryOnlyTheme "t" "T" "#ff0000"))
          = { defaultResolved with primary := "#ff0000" } :=
  ⟨by decide, claim_C5_theme_fieldwise.2.1 "t" "T" "#ff0000" (by decide)⟩

/-- When the item ids are pairwise distinct, `removeItem` never empties a
non-empty list: the guard keeps singletons intact, and with at least two
distinct ids the filter drops at most one item. -/
theorem removeItem_ne_nil (items : List InvoiceItem) (tid : String)
    (hnd : (items.map InvoiceItem.id).Nodup) (hne : items ≠ []) :
    removeItem items tid ≠ [] := by
  rw [removeItem]
  by_cases hlen : items.length > 1
  · rw [if_pos hlen]
    match items with
    | [] => exact absurd rfl hne
    | a :: rest =>
      by_cases hid : a.id = tid
      · have ha : a.id ∉ rest.map InvoiceItem.id := by
          simp only [List.map_cons, List.nodup_cons] at hnd
          exact hnd.1
        have hkeep : rest.filter (fun it => it.id ≠ tid) = rest := by
          apply List.filter_eq_self.mpr
          intro b hb
          have hbid : b.id ≠ tid := by
            intro hb2
            exact ha (hid ▸ hb2 ▸ List.mem_map_of_mem InvoiceItem.id hb)
          simp [hbid]
        have hrest : rest ≠ [] := by
          intro h
          subst h
          simp at hlen
        rw [List.filter_cons, if_neg (by simp [hid]), hkeep]
        exact hrest
      · simp [List.filter_cons, hid]
  · rw [if_neg hlen]
    exact hne

/-- Claim C10, counterexample: two `addItem` calls in the same millisecond
produce the same `Date.now()` id; from the initial state, adding two items
with the colliding id "x", removing the initial item "1" and then removing
"x" leaves the item list empty, because `filter` drops every item whose id
matches.  The list can therefore become empty, and `removeItem` does not
remove exactly one item. -/
theorem claim_C10_counterexample :
    removeItem (removeItem (addItem (addItem initialItems "x") "x") "1") "x"
      = [] := by
  decide

/-- Claim C10 as amended: the initial state has exactly one item; `addItem`
and `handleExpenseItemsAdd` only append; `updateItem` preserves the length;
`removeItem` is a no-op when at most one item remains and otherwise drops
every item carrying the given id; and provided the item ids are pairwise
distinct (the timestamp-generated ids never collide), the list is never
empty. -/
theorem claim_C10_amended :
    initialItems.length = 1
      ∧ (∀ (items : List InvoiceItem) (nid : String),
          addItem items nid = items
            ++ [{ id := nid, description := "", quantity := 1, rate := 0,
                  amount := 0 }])
      ∧ (∀ (items : List InvoiceItem) (es : List (String × ExpenseItem)),
          handleExpenseItemsAdd items es = items
            ++ es.map fun p =>
              { id := p.1, description := p.2.description, quantity := 1,
                rate := p.2.amount, amount := p.2.amount })
      ∧ (∀ (items : List InvoiceItem) (tid : String) (e : FieldEdit),
          (updateItem items tid e).length = items.length)
      ∧ (∀ (items : List InvoiceItem) (tid : String),
          items.length ≤ 1 → removeItem items tid = items)
      ∧ (∀ (items : List InvoiceItem) (tid : String),
          (items.map InvoiceItem.id).Nodup → items ≠ [] →
            removeItem items tid ≠ []) := by
  refine ⟨rfl, fun items nid => rfl, fun items es => rfl,
    fun items tid e => List.length_map items _, ?_, removeItem_ne_nil⟩
  intro items tid h
  rw [removeItem, if_neg (by omega)]

/-- Witness for claim C10: removing from the singleton initial state is a
no-op, and with its (trivially distinct) ids the result stays non-empty. -/
theorem claim_C10_witness :
    initialItems.length ≤ 1
      ∧ (initialItems.map InvoiceItem.id).Nodup
      ∧ removeItem initialItems "1" = initialItems
      ∧ removeItem initialItems "1" ≠ [] := by
  refine ⟨by decide, by decide, ?_, ?_⟩
  · exact claim_C10_amended.2.2.2.2.1 initialItems "1" (by decide)
  · exact claim_C10_amended.2.2.2.2.2 initialItems "1" (by decide)
      (by simp [initialItems])

/-- Every command an item row emits is drawn on page 0. -/
theorem itemRows_all_page0 :
    ∀ (items : List InvoiceItem) (y : ℕ),
      ((itemRows y items).all fun c => c.pageOf == 0) = true := by
  intro items
  induction items with
  | nil => intro y; rfl
  | cons a rest ih =>
      intro y
      simp only [itemRows, List.all_append, List.all_cons, List.all_nil,
        CmdA.pageOf, beq_self_eq_true, Bool.and_true, Bool.true_and,
        Bool.and_self]
      exact ih (y + 10)

/-- Every command `generatePDF0` emits is drawn on page 0: the source never
calls `addPage`. -/
theorem generatePDF0_all_page0 (s : StateA) :
    ((generatePDF0 s).all fun c => c.pageOf == 0) = true := by
  rw [generatePDF0]
  split_ifs <;>
    · simp only [List.all_append, List.all_cons, List.all_nil, CmdA.pageOf,
        beq_self_eq_true, Bool.and_true, Bool.true_and, Bool.and_self]
      exact itemRows_all_page0 s.items 110

/-- The description cell of the item at index `i` is drawn at
`y = base + 10 * i`. -/
theorem itemRows_mem_desc :
    ∀ (items : List InvoiceItem) (y i : ℕ) (h : i < items.length),
      CmdA.text (items.get ⟨i, h⟩).description 20 (y + 10 * i) 0
        ∈ itemRows y items := by
  intro items
  induction items with
  | nil => intro y i h; exact absurd h (Nat.not_lt_zero i)
  | cons a rest ih =>
      intro y i h
      cases i with
      | zero => simp [itemRows]
      | succ j =>
          have hj : j < rest.length := Nat.lt_of_succ_lt_succ h
          have hmem := ih (y + 10) j hj
          have harith : y + 10 + 10 * j = y + 10 * (j + 1) := by ring
          rw [harith] at hmem
          simp only [itemRows, List.mem_append]
          exact Or.inr hmem

/-- Membership in the item-row segment lifts to the whole command list. -/
theorem mem_generatePDF0_of_mem_itemRows (s : StateA) (c : CmdA)
    (hc : c ∈ itemRows 110 s.items) : c ∈ generatePDF0 s := by
  rw [generatePDF0]
  simp only [List.mem_append]
  tauto

/-- The notes body, when non-empty, is emitted as one raw text command at
`y = 110 + 10 * items.length + 10 + 40`, with the unwrapped notes string. -/
theorem generatePDF0_notes_mem (s : StateA) (h : s.notes ≠ "") :
    CmdA.text s.notes 20 (110 + 10 * s.items.length + 10 + 40) 0
      ∈ generatePDF0 s := by
  rw [generatePDF0]
  simp only [List.mem_append]
  have hmem : CmdA.text s.notes 20 (110 + 10 * s.items.length + 10 + 40) 0
      ∈ (if s.notes ≠ "" then
          [CmdA.fontSize 10 0,
           CmdA.text "Notes:" 20 (110 + 10 * s.items.length + 10 + 30) 0,
           CmdA.text s.notes 20 (110 + 10 * s.items.length + 10 + 40) 0]
        else []) := by
    rw [if_pos h]
    simp
  tauto

/-- Claim C2, counterexample: with 20 items the 20th table row is drawn at
`y = 300`, beyond the 297 mm A4 page height, and every command still lands
on page 0 -- no page break occurs, no second page exists, and no header row
is re-emitted.  The claimed pagination rule is absent from the source. -/
theorem claim_C2_counterexample :
    CmdA.text "x" 20 300 0 ∈ generatePDF0 manyItemsState
      ∧ pageHeightA4 < 300
      ∧ ((generatePDF0 manyItemsState).all fun c => c.pageOf == 0) = true := by
  refine ⟨?_, by decide, generatePDF0_all_page0 manyItemsState⟩
  have h := itemRows_mem_desc manyItemsState.items 110 19 (by decide)
  have hget : (manyItemsState.items.get ⟨19, by decide⟩).description = "x" := by
    decide
  rw [hget] at h
  exact mem_generatePDF0_of_mem_itemRows manyItemsState _ (by simpa using h)

/-- Claim C2 as amended: `generatePDF` performs no pagination at all.  The
vertical cursor starts at 100 and advances by fixed increments with no
check against the page height, every emitted command is drawn on page 0
(the source never opens a second page and never re-emits the table header),
and the row of item `i` sits at `y = 110 + 10 * i`, growing without bound
as items are added. -/
theorem claim_C2_amended (s : StateA) :
    ((generatePDF0 s).all fun c => c.pageOf == 0) = true
      ∧ ∀ (i : ℕ) (h : i < s.items.length),
          CmdA.text (s.items.get ⟨i, h⟩).description 20 (110 + 10 * i) 0
            ∈ generatePDF0 s := by
  refine ⟨generatePDF0_all_page0 s, ?_⟩
  intro i h
  exact mem_generatePDF0_of_mem_itemRows s _ (itemRows_mem_desc s.items 110 i h)

/-- Witness for claim C2: in the 20-item state the first item row is drawn
at `y = 110` on page 0. -/
theorem claim_C2_witness :
    0 < manyItemsState.items.length
      ∧ CmdA.text "x" 20 110 0 ∈ generatePDF0 manyItemsState := by
  refine ⟨by decide, ?_⟩
  have h := (claim_C2_amended manyItemsState).2 0 (by decide)
  simpa [manyItemsState, blankItem] using h

/-- Greedy accumulation loses no tokens: flattening the produced lines
restores the current line followed by the remaining tokens. -/
theorem wrapGo_join :
    ∀ (rest : List String) (w : ℕ) (cur : List String),
      (wrapGo w cur rest).flatten = cur ++ rest := by
  intro rest
  induction rest with
  | nil => intro w cur; simp [wrapGo]
  | cons t ts ih =>
      intro w cur
      rw [wrapGo]
      split
      · rw [ih]
        simp
      · rw [List.flatten_cons, ih]
        simp

/-- Flattening the wrapped lines restores exactly the input tokens: no
token is dropped or split. -/
theorem wrapTokens_join (w : ℕ) (toks : List String) :
    (wrapTokens w toks).flatten = toks := by
  cases toks with
  | nil => rfl
  | cons t ts =>
      rw [wrapTokens, wrapGo_join]
      rfl

/-- Invariant of greedy accumulation: if the current line is non-empty and
fits (or is a lone token), every produced line is non-empty and fits (or is
a lone token). -/
theorem wrapGo_lines (w : ℕ) :
    ∀ (rest cur : List String), cur ≠ [] →
      ((lineStr cur).length ≤ w ∨ cur.length = 1) →
      ∀ l ∈ wrapGo w cur rest,
        l ≠ [] ∧ ((lineStr l).length ≤ w ∨ l.length = 1) := by
  intro rest
  induction rest with
  | nil =>
      intro cur hne hok l hl
      rw [wrapGo, List.mem_singleton] at hl
      exact hl ▸ ⟨hne, hok⟩
  | cons t ts ih =>
      intro cur hne hok l hl
      rw [wrapGo] at hl
      split at hl
      · exact ih (cur ++ [t]) (by simp) (Or.inl (by assumption)) l hl
      · rcases List.mem_cons.mp hl with rfl | hl
        · exact ⟨hne, hok⟩
        · exact ih [t] (by simp) (Or.inr rfl) l hl

/-- Every wrapped line is non-empty and either fits the width or consists
of a single (over-wide) token placed alone. -/
theorem wrapTokens_lines (w : ℕ) (toks : List String) :
    ∀ l ∈ wrapTokens w toks,
      l ≠ [] ∧ ((lineStr l).length ≤ w ∨ l.length = 1) := by
  cases toks with
  | nil => intro l hl; exact absurd hl (List.not_mem_nil l)
  | cons t ts =>
      intro l hl
      exact wrapGo_lines w ts [t] (by simp) (Or.inr rfl) l hl

/-- Claim C3, counterexample: in the first generator the 500-character
notes string is emitted as one raw text command -- a produced line of
length 500, far beyond a 40-character width -- because
`doc.text(notes, 20, yPosition + 40)` performs no wrapping; notes are not
wrapped before heights are computed. -/
theorem claim_C3_counterexample :
    CmdA.text sampleText 20 170 0 ∈ generatePDF0 notesState
      ∧ sampleText.length = 500
      ∧ ¬ sampleText.length ≤ 40 := by
  refine ⟨?_, by decide, by decide⟩
  have h := generatePDF0_notes_mem notesState (by decide)
  simpa [notesState] using h

/-- Claim C3 as amended: the greedy word-wrap of the rendering backend
(modelled from the spec, with character-count width measurement) loses no
tokens, and each produced line either fits `maxWidth` or is a single
over-wide token placed alone on its own line; the second generator wraps
the service description with it before drawing; Scenario C holds for the
500-character sample text (13 = ceil(500/40) lines, none wider than 40).
However, in the first generator the notes field is drawn as one raw
unwrapped text run, so the notes are not wrapped before heights are
computed. -/
theorem claim_C3_amended :
    (∀ (s : String) (w : ℕ), (wrapTokens w (tokenize s)).flatten = tokenize s)
      ∧ (∀ (s : String) (w : ℕ), ∀ line ∈ splitTextToSize s w,
          line.length ≤ w ∨ line ∈ tokenize s)
      ∧ (∀ (s : FormStateB) (today : String) (now : ℕ),
          CmdB.textLines (splitTextToSize s.serviceDescription (pageWidthA4 - 40))
              20 170 ∈ generatePDF1 s today now)
      ∧ (∀ s : StateA, s.notes ≠ "" →
          CmdA.text s.notes 20 (110 + 10 * s.items.length + 10 + 40) 0
            ∈ generatePDF0 s)
      ∧ sampleText.length = 500
      ∧ (splitTextToSize sampleText 40).length = 13
      ∧ ∀ line ∈ splitTextToSize sampleText 40, line.length ≤ 40 := by
  refine ⟨fun s w => wrapTokens_join w (tokenize s), ?_, ?_,
    generatePDF0_notes_mem, by decide, by decide, by decide⟩
  · intro s w line hline
    rw [splitTextToSize, List.mem_map] at hline
    obtain ⟨l, hl, rfl⟩ := hline
    rcases (wrapTokens_lines w (tokenize s) l hl).2 with hfit | hone
    · exact Or.inl hfit
    · right
      match l, hone with
      | [t], _ =>
          have ht : t ∈ (wrapTokens w (tokenize s)).flatten :=
            List.mem_flatten.mpr ⟨[t], hl, List.mem_singleton.mpr rfl⟩
          rw [wrapTokens_join] at ht
          simpa [lineStr] using ht
  · intro s today now
    simp [generatePDF1]

/-- Witness for claim C3: the text "hello world" wrapped at width 5 yields
the line "hello", which fits the width or is itself an input token. -/
theorem claim_C3_witness :
    ("hello" ∈ splitTextToSize "hello world" 5)
      ∧ ("hello".length ≤ 5 ∨ "hello" ∈ tokenize "hello world") :=
  ⟨by decide, claim_C3_amended.2.1 "hello world" 5 "hello" (by decide)⟩

/-- Claim C6: the export pipeline is deterministic given the same form
state.  Two runs of the second generator at different wall-clock times
produce identical command lists once the two commands embedding the
generation timestamp (the date line and the `INV-<Date.now()>` invoice
number) are excluded; no other command depends on the time.  (The first
generator's `generatePDF0` takes no time input at all, so its output is a
pure function of the state by construction.) -/
theorem claim_C6_deterministic (s : FormStateB) (t₁ t₂ : String) (n₁ n₂ : ℕ) :
    scrubTimestamps (generatePDF1 s t₁ n₁)
      = scrubTimestamps (generatePDF1 s t₂ n₂) := rfl

/-- `Char.toNat` of a valid `Char.ofNat` is the argument. -/
theorem toNat_ofNat_valid (m : ℕ) (h : Nat.isValidChar m) :
    (Char.ofNat m).toNat = m := by
  rw [Char.ofNat, dif_pos h, Char.ofNatAux]
  rfl

/-- Lowercasing never turns a non-whitespace character into whitespace. -/
theorem toLower_not_ws (c : Char) (h : c.isWhitespace = false) :
    c.toLower.isWhitespace = false := by
  rw [Char.toLower]
  split
  · next hc =>
      obtain ⟨h1, h2⟩ := hc
      have hv : Nat.isValidChar (c.toNat + 32) := Or.inl (by omega)
      have ht : (Char.ofNat (c.toNat + 32)).toNat = c.toNat + 32 :=
        toNat_ofNat_valid _ hv
      rw [Char.isWhitespace]
      simp only [Bool.or_eq_false_iff, decide_eq_false_iff_not]
      refine ⟨⟨⟨?_, ?_⟩, ?_⟩, ?_⟩
      · intro he
        have h3 := congrArg Char.toNat he
        rw [ht, show (' ' : Char).toNat = 32 from rfl] at h3
        omega
      · intro he
        have h3 := congrArg Char.toNat he
        rw [ht, show ('\t' : Char).toNat = 9 from rfl] at h3
        omega
      · intro he
        have h3 := congrArg Char.toNat he
        rw [ht, show ('\x0d' : Char).toNat = 13 from rfl] at h3
        omega
      · intro he
        have h3 := congrArg Char.toNat he
        rw [ht, show ('\n' : Char).toNat = 10 from rfl] at h3
        omega
  · exact h

/-- The whitespace-collapsing pass emits no whitespace characters. -/
theorem collapseWs_not_ws :
    ∀ (l : List Char) (b : Bool), ∀ ch ∈ collapseWs l b,
      ch.isWhitespace = false := by
  intro l
  induction l with
  | nil => intro b ch h; exact absurd h (List.not_mem_nil ch)
  | cons c rest ih =>
      intro b ch h
      rw [collapseWs] at h
      split at h
      · split at h
        · exact ih true ch h
        · rcases List.mem_cons.mp h with rfl | h
          · rfl
          · exact ih true ch h
      · next hc =>
          rcases List.mem_cons.mp h with rfl | h
          · exact Bool.not_eq_true _ ▸ (by simpa using hc)
          · exact ih false ch h

/-- The slugified client name contains no whitespace character. -/
theorem slugify_not_ws (s : String) :
    ∀ ch ∈ (slugify s).data, ch.isWhitespace = false := by
  intro ch hch
  have hch2 : ch ∈ (collapseWs s.data false).map Char.toLower := hch
  rw [List.mem_map] at hch2
  obtain ⟨d, hd, rfl⟩ := hch2
  exact toLower_not_ws d (collapseWs_not_ws s.data false d hd)

/-- Claim C7, counterexample: with an empty invoice number the first
generator saves the file as the degenerate name `invoice-.pdf`: no fallback
identifier is substituted. -/
theorem claim_C7_counterexample : savedFileName "" = "invoice-.pdf" := rfl

/-- Claim C7 as amended: the first generator's save name is
`invoice-<invoiceNumber>.pdf` with no fallback for an empty invoice number;
the second generator's attachment name is derived from the client name (its
whitespace runs collapsed to dashes and lowercased) plus the `Date.now()`
timestamp -- not from the invoice number -- and that name is never empty
and its slug part contains no whitespace. -/
theorem claim_C7_amended :
    (∀ inv : String, savedFileName inv = "invoice-" ++ inv ++ ".pdf")
      ∧ (∀ (c : String) (n : ℕ),
          attachmentFileName c n
            = "invoice-" ++ slugify c ++ "-" ++ toString n ++ ".pdf")
      ∧ (∀ (c : String) (n : ℕ), (attachmentFileName c n).length ≠ 0)
      ∧ (∀ c : String, ∀ ch ∈ (slugify c).data, ch.isWhitespace = false) := by
  refine ⟨fun inv => rfl, fun c n => rfl, ?_, slugify_not_ws⟩
  intro c n
  simp [attachmentFileName, String.length_append]
  intro h
  exact absurd h (by decide)

/-- Witness for claim C7: slugifying "A B" yields characters (such as the
lower-cased 'a') that are not whitespace. -/
theorem claim_C7_witness :
    ('a' ∈ (slugify "A B").data) ∧ ('a').isWhitespace = false :=
  ⟨by decide, claim_C7_amended.2.2.2 "A B" 'a' (by decide)⟩

/-- Claim C8, counterexample: when the delivery collaborator reports the
error "SMTP connection refused", the handler's catch block swallows it and
shows the fixed generic toast; the error is not propagated to the caller
unmodified (indeed it appears nowhere in the outcome), and no artifact is
retained -- only the form data survives for a retry, which regenerates the
PDF from scratch. -/
theorem claim_C8_counterexample :
    (handleGenerateAndSend validSample (some "SMTP connection refused")).toastDesc
        = genericFailureMsg
      ∧ genericFailureMsg ≠ "SMTP connection refused"
      ∧ (handleGenerateAndSend validSample
          (some "SMTP connection refused")).generated = true := by
  have hv : validateMsg validSample = none := by decide
  refine ⟨?_, by decide, ?_⟩ <;> simp [handleGenerateAndSend, hv]

/-- Claim C8 as amended: when delivery fails on validated input, the thrown
error is caught inside `handleGenerateAndSend` and replaced by the generic
failure toast; the function returns normally (no error value reaches the
caller), the form keeps its data, and a retry runs the whole pipeline
again -- the generated PDF is a local value that is not retained. -/
theorem claim_C8_amended (s : FormStateB) (e : String)
    (h : validateMsg s = none) :
    handleGenerateAndSend s (some e) = deliveryFailureResult s := by
  simp [handleGenerateAndSend, h, deliveryFailureResult]

/-- Witness for claim C8: the valid sample form with a failing send yields
exactly the swallowed-error outcome. -/
theorem claim_C8_witness :
    validateMsg validSample = none
      ∧ handleGenerateAndSend validSample (some "boom")
          = deliveryFailureResult validSample := by
  have hv : validateMsg validSample = none := by decide
  exact ⟨hv, claim_C8_amended validSample "boom" hv⟩

/-- An element on which the predicate is false survives `dropWhile`. -/
theorem mem_dropWhile_of_mem {α : Type} {p : α → Bool} :
    ∀ (l : List α) (c : α), c ∈ l → p c = false → c ∈ l.dropWhile p := by
  intro l
  induction l with
  | nil => intro c hc; exact fun _ => absurd hc (List.not_mem_nil c)
  | cons a rest ih =>
      intro c hc hpc
      cases hpa : p a
      · simpa [List.dropWhile, hpa] using hc
      · simp only [List.dropWhile, hpa]
        rcases List.mem_cons.mp hc with rfl | hc
        · rw [hpa] at hpc; exact absurd hpc (by simp)
        · exact ih c hc hpc

/-- A string containing a non-whitespace character does not trim to
empty. -/
theorem jsTrim_ne_empty (s : String) (c : Char) (hc : c ∈ s.data)
    (hw : c.isWhitespace = false) : jsTrim s ≠ "" := by
  intro h
  have hl : ((s.data.dropWhile Char.isWhitespace).reverse.dropWhile
      Char.isWhitespace).reverse = [] := congrArg String.data h
  have h1 := mem_dropWhile_of_mem s.data c hc hw
  have h2 := List.mem_reverse.mpr h1
  have h3 := mem_dropWhile_of_mem _ c h2 hw
  have h4 := List.mem_reverse.mpr h3
  rw [hl] at h4
  exact absurd h4 (List.not_mem_nil c)

/-- Claim C9: `validateForm` accepts exactly when the client name, service
description and issuer name are non-empty after trimming, the total hours
and hourly rate are positive, and the email contains the character `@`;
and when validation fails, `handleGenerateAndSend` returns before
generating or sending anything.  (`generatePDF` itself performs no
validation: it is a total function of the form state.) -/
theorem claim_C9_validation (s : FormStateB) (e : Option String) :
    (validateForm s = true ↔
        (jsTrim s.clientName ≠ "" ∧ jsTrim s.serviceDescription ≠ ""
          ∧ 0 < s.totalHours ∧ 0 < s.hourlyRate ∧ jsTrim s.userName ≠ ""
          ∧ '@' ∈ s.userEmail.data))
      ∧ (validateForm s = false →
          (handleGenerateAndSend s e).generated = false
            ∧ (handleGenerateAndSend s e).sent = false) := by
  constructor
  · rw [validateForm, validateMsg]
    split_ifs with h1 h2 h3 h4 h5 h6
    · simp only [Option.isNone_some, Bool.false_eq_true, false_iff]
      intro hp; exact hp.1 h1
    · simp only [Option.isNone_some, Bool.false_eq_true, false_iff]
      intro hp; exact hp.2.1 h2
    · simp only [Option.isNone_some, Bool.false_eq_true, false_iff]
      intro hp; exact absurd hp.2.2.1 (not_lt.mpr h3)
    · simp only [Option.isNone_some, Bool.false_eq_true, false_iff]
      intro hp; exact absurd hp.2.2.2.1 (not_lt.mpr h4)
    · simp only [Option.isNone_some, Bool.false_eq_true, false_iff]
      intro hp; exact hp.2.2.2.2.1 h5
    · simp only [Option.isNone_some, Bool.false_eq_true, false_iff]
      intro hp
      rcases h6 with he | hnc
      · exact jsTrim_ne_empty s.userEmail '@' hp.2.2.2.2.2 rfl he
      · exact hnc (List.elem_iff.mpr hp.2.2.2.2.2)
    · simp only [Option.isNone_none, true_iff]
      push_neg at h6
      exact ⟨h1, h2, not_le.mp h3, not_le.mp h4, h5,
        List.elem_iff.mp (by simpa using h6.2)⟩
  · intro hf
    rcases hm : validateMsg s with m | m
    · rw [validateForm, hm] at hf
      simp at hf
    · simp [handleGenerateAndSend, hm]

/-- Witness for claim C9: the empty form fails validation, and the handler
neither generates nor sends anything for it. -/
theorem claim_C9_witness :
    validateForm emptyForm = false
      ∧ (handleGenerateAndSend emptyForm none).generated = false
      ∧ (handleGenerateAndSend emptyForm none).sent = false := by
  have h := (claim_C9_validation emptyForm none).2 (by decide)
  exact ⟨by decide, h.1, h.2⟩

end Invoice
